import Mathlib

/-!
Verification development for the rusty_ollama crate (src/src/lib.rs), a Rust
client for the Ollama generate API.  The Rust source is shallowly embedded:

* JSON values (serde_json::Value) become the inductive `Json`; serde_json
  numbers (u64 / i64 / f64) become `JsonNum` (`uint` for non-negative integers
  in u64 range, `int` for negative integers in i64 range, `float` for every
  other numeric literal — float payloads are not needed by any property here).
* `serde_json::from_str::<Value>` becomes the executable parser `parseJson`
  (fuel-indexed recursive descent; fuel is always sufficient for the input).
  Unicode escape surrogate pairs and duplicate object keys are outside the
  behaviours exercised here and are modelled conservatively (surrogate escapes
  rejected; object lookup by `Json.get` takes the last occurrence, matching
  serde_json map insertion order).
* Machine integers (u8 / u16 / u64) are Nat with explicit reductions mod
  2^8 / 2^16 where the Rust code performs `as` casts; `as_u64` only succeeds
  on `uint` numbers, as in serde_json.
* The HTTP transport is an external collaborator (per the crate boundary) and
  is passed in as an oracle returning either an error or the response body
  (non-streaming) / the framed line sequence (streaming).
* Fallible Rust paths (`Result`) become `Except` / `Option`.
-/

namespace RustyOllama

/-- Model of serde_json numbers: u64-range non-negative integers, negative
i64-range integers, and everything else (floats, out-of-range integers). -/
inductive JsonNum where
  | uint : Nat → JsonNum
  | int : Int → JsonNum
  | float : JsonNum
deriving DecidableEq, Repr

/-- Model of serde_json::Value. Objects are association lists in parse order. -/
inductive Json where
  | null : Json
  | bool : Bool → Json
  | num : JsonNum → Json
  | str : String → Json
  | arr : List Json → Json
  | obj : List (String × Json) → Json
deriving Repr

/-- Value::as_u64: Some only for numbers stored in u64 representation. -/
def Json.asU64 : Json → Option Nat
  | .num (.uint n) => some n
  | _ => none

/-- Value::as_str. -/
def Json.asStr : Json → Option String
  | .str s => some s
  | _ => none

/-- Value::as_array. -/
def Json.asArray : Json → Option (List Json)
  | .arr xs => some xs
  | _ => none

/-- Last-occurrence association-list lookup: serde_json map insertion
overwrites earlier duplicates, so the parsed map holds the last value. -/
def objLookup (kvs : List (String × Json)) (key : String) : Json :=
  kvs.foldl (fun acc kv => if kv.1 = key then kv.2 else acc) Json.null

/-- Value indexing `value[key]`: Null on non-objects and on missing keys. -/
def Json.get (j : Json) (key : String) : Json :=
  match j with
  | .obj kvs => objLookup kvs key
  | _ => .null

/-- JSON insignificant whitespace (RFC 8259: space, tab, LF, CR). -/
def jsonWs (c : Char) : Bool :=
  c = ' ' || c = '\t' || c = '\n' || c = '\r'

/-- Skip leading JSON whitespace. -/
def skipWs : List Char → List Char
  | [] => []
  | c :: rest => if jsonWs c then skipWs rest else c :: rest

/-- Hexadecimal digit value. -/
def hexVal (c : Char) : Option Nat :=
  if '0' ≤ c ∧ c ≤ '9' then some (c.toNat - '0'.toNat)
  else if 'a' ≤ c ∧ c ≤ 'f' then some (c.toNat - 'a'.toNat + 10)
  else if 'A' ≤ c ∧ c ≤ 'F' then some (c.toNat - 'A'.toNat + 10)
  else none

/-- Parse the body of a JSON string after the opening quote, handling the
escape sequences serde_json accepts (surrogate pairs excepted, see header).
Unescaped control characters below 0x20 are rejected, as in serde_json. -/
def parseStringChars : Nat → List Char → Option (List Char × List Char)
  | 0, _ => none
  | _, [] => none
  | fuel + 1, c :: rest =>
    if c = '"' then some ([], rest)
    else if c = '\\' then
      match rest with
      | '"' :: r => (parseStringChars fuel r).map (fun p => ('"' :: p.1, p.2))
      | '\\' :: r => (parseStringChars fuel r).map (fun p => ('\\' :: p.1, p.2))
      | '/' :: r => (parseStringChars fuel r).map (fun p => ('/' :: p.1, p.2))
      | 'b' :: r => (parseStringChars fuel r).map (fun p => (Char.ofNat 8 :: p.1, p.2))
      | 'f' :: r => (parseStringChars fuel r).map (fun p => (Char.ofNat 12 :: p.1, p.2))
      | 'n' :: r => (parseStringChars fuel r).map (fun p => ('\n' :: p.1, p.2))
      | 'r' :: r => (parseStringChars fuel r).map (fun p => ('\r' :: p.1, p.2))
      | 't' :: r => (parseStringChars fuel r).map (fun p => ('\t' :: p.1, p.2))
      | 'u' :: h1 :: h2 :: h3 :: h4 :: r =>
        match hexVal h1, hexVal h2, hexVal h3, hexVal h4 with
        | some a, some b, some c2, some d =>
          let n := ((a * 16 + b) * 16 + c2) * 16 + d
          if 0xD800 ≤ n ∧ n ≤ 0xDFFF then none
          else (parseStringChars fuel r).map (fun p => (Char.ofNat n :: p.1, p.2))
        | _, _, _, _ => none
      | _ => none
    else if c.toNat < 0x20 then none
    else (parseStringChars fuel rest).map (fun p => (c :: p.1, p.2))

/-- Split leading decimal digits from the rest. -/
def takeDigits : List Char → List Char × List Char
  | [] => ([], [])
  | c :: rest =>
    if c.isDigit then
      let p := takeDigits rest
      (c :: p.1, p.2)
    else ([], c :: rest)

/-- Decimal digit list to Nat. -/
def digitsToNat (ds : List Char) : Nat :=
  ds.foldl (fun acc c => acc * 10 + (c.toNat - 48)) 0

/-- Exponent part after the `e`/`E`: optional sign then at least one digit. -/
def parseExpDigits (r : List Char) : Option (List Char) :=
  let r1 := match r with
    | '+' :: t => t
    | '-' :: t => t
    | _ => r
  match takeDigits r1 with
  | ([], _) => none
  | (_, r2) => some r2

/-- Parse a JSON number literal (after an optional leading minus consumed by
the caller): digits with the no-leading-zero rule, optional fraction and
exponent.  Integers in range become `uint`/`int`; everything else (fraction,
exponent, out-of-range, negative zero) is modelled as `float`. -/
def parseNumberTail (neg : Bool) (cs1 : List Char) : Option (JsonNum × List Char) :=
  match takeDigits cs1 with
  | ([], _) => none
  | (intDigits, cs2) =>
    if 1 < intDigits.length ∧ intDigits.head? = some '0' then none
    else
      let fracStep : Option (Bool × List Char) :=
        match cs2 with
        | '.' :: r =>
          match takeDigits r with
          | ([], _) => none
          | (_, r2) => some (true, r2)
        | _ => some (false, cs2)
      match fracStep with
      | none => none
      | some (hasFrac, cs3) =>
        let expStep : Option (Bool × List Char) :=
          match cs3 with
          | 'e' :: r => (parseExpDigits r).map (fun r2 => (true, r2))
          | 'E' :: r => (parseExpDigits r).map (fun r2 => (true, r2))
          | _ => some (false, cs3)
        match expStep with
        | none => none
        | some (hasExp, cs4) =>
          if hasFrac ∨ hasExp then some (.float, cs4)
          else
            let n := digitsToNat intDigits
            if neg then
              if n = 0 then some (.float, cs4)
              else if n ≤ 2 ^ 63 then some (.int (-(n : Int)), cs4)
              else some (.float, cs4)
            else if n < 2 ^ 64 then some (.uint n, cs4)
            else some (.float, cs4)

mutual

/-- Parse one JSON value (leading whitespace already skipped). -/
def parseValue : Nat → List Char → Option (Json × List Char)
  | 0, _ => none
  | fuel + 1, cs =>
    match cs with
    | [] => none
    | 'n' :: 'u' :: 'l' :: 'l' :: r => some (.null, r)
    | 't' :: 'r' :: 'u' :: 'e' :: r => some (.bool true, r)
    | 'f' :: 'a' :: 'l' :: 's' :: 'e' :: r => some (.bool false, r)
    | '"' :: rest =>
      (parseStringChars (rest.length + 1) rest).map
        (fun p => (.str (String.mk p.1), p.2))
    | '[' :: rest =>
      match skipWs rest with
      | ']' :: r => some (.arr [], r)
      | cs1 =>
        match parseArrayItems fuel cs1 with
        | some (xs, r) => some (.arr xs, r)
        | none => none
    | '{' :: rest =>
      match skipWs rest with
      | '}' :: r => some (.obj [], r)
      | cs1 =>
        match parseObjItems fuel cs1 with
        | some (kvs, r) => some (.obj kvs, r)
        | none => none
    | '-' :: rest =>
      (parseNumberTail true rest).map (fun p => (.num p.1, p.2))
    | c :: _ =>
      if c.isDigit then (parseNumberTail false cs).map (fun p => (.num p.1, p.2))
      else none

/-- Parse one-or-more comma-separated array items up to the closing bracket
(first item's leading whitespace already skipped). -/
def parseArrayItems : Nat → List Char → Option (List Json × List Char)
  | 0, _ => none
  | fuel + 1, cs =>
    match parseValue fuel cs with
    | none => none
    | some (v, r) =>
      match skipWs r with
      | ',' :: r2 =>
        match parseArrayItems fuel (skipWs r2) with
        | some (vs, r3) => some (v :: vs, r3)
        | none => none
      | ']' :: r2 => some ([v], r2)
      | _ => none

/-- Parse one-or-more comma-separated object members up to the closing brace
(first member's leading whitespace already skipped). -/
def parseObjItems : Nat → List Char → Option (List (String × Json) × List Char)
  | 0, _ => none
  | fuel + 1, cs =>
    match cs with
    | '"' :: r =>
      match parseStringChars (r.length + 1) r with
      | none => none
      | some (keyChars, r1) =>
        match skipWs r1 with
        | ':' :: r2 =>
          match parseValue fuel (skipWs r2) with
          | none => none
          | some (v, r3) =>
            match skipWs r3 with
            | ',' :: r4 =>
              match parseObjItems fuel (skipWs r4) with
              | some (kvs, r5) => some ((String.mk keyChars, v) :: kvs, r5)
              | none => none
            | '}' :: r4 => some ([(String.mk keyChars, v)], r4)
            | _ => none
        | _ => none
    | _ => none

end

/-- serde_json::from_str::<Value>: parse one value surrounded only by
whitespace; trailing non-whitespace input is an error. -/
def parseJson (s : String) : Option Json :=
  match parseValue (2 * s.data.length + 8) (skipWs s.data) with
  | some (v, rest) => if skipWs rest = [] then some v else none
  | none => none

/-- OllamaError (lib.rs 34-47): Reqwest, Serde and Io variants; the payloads
(the wrapped foreign error values) are not needed by any property here. -/
inductive OllamaError where
  | reqwest : OllamaError
  | serde : OllamaError
  | io : OllamaError
deriving DecidableEq, Repr

/-- tokio_util LinesCodecError, an external collaborator error surfaced by the
line framer; its payload is irrelevant here. -/
inductive LinesCodecError where
  | io : LinesCodecError
deriving DecidableEq, Repr

/-- From for LinesCodecError (lib.rs 49-53): every framing error is normalized
into the Io variant. -/
def OllamaError.fromLinesCodec : LinesCodecError → OllamaError :=
  fun _ => OllamaError.io

/-- Format (lib.rs 56-62). -/
inductive Format where
  | None : Format
  | JSON : Format
deriving DecidableEq, Repr

/-- From Format for String (lib.rs 64-71): the wire string of a format. -/
def Format.intoString : Format → String
  | .None => ""
  | .JSON => "json"

/-- OllamaRequestOptions (lib.rs 89-99). u64 context tokens are Nat. -/
structure OllamaRequestOptions where
  suffix : String
  format : Format
  system : String
  context : List Nat
deriving DecidableEq, Repr

/-- OllamaRequest (lib.rs 102-120): the serialized request shape; `format` is
already the wire string here, as in the Rust struct. -/
structure OllamaRequest where
  model : String
  prompt : String
  suffix : String
  format : String
  system : String
  stream : Bool
  raw : Bool
  context : List Nat
deriving DecidableEq, Repr

/-- OllamaRequest::new (lib.rs 131-148). -/
def OllamaRequest.new (model prompt : String) (options : OllamaRequestOptions)
    (stream raw : Bool) : OllamaRequest :=
  { model := model
    prompt := prompt
    suffix := options.suffix
    format := options.format.intoString
    system := options.system
    stream := stream
    raw := raw
    context := options.context }

/-- Default for OllamaRequest (lib.rs 151-167). -/
def OllamaRequest.default : OllamaRequest :=
  OllamaRequest.new "llama3.2" ""
    { suffix := "", format := Format.None, system := "", context := [] }
    false false

/-- Serde Serialize for OllamaRequest (derived): the serialized JSON body,
fields in declaration order. -/
def OllamaRequest.toJson (r : OllamaRequest) : Json :=
  Json.obj
    [("model", Json.str r.model),
     ("prompt", Json.str r.prompt),
     ("suffix", Json.str r.suffix),
     ("format", Json.str r.format),
     ("system", Json.str r.system),
     ("stream", Json.bool r.stream),
     ("raw", Json.bool r.raw),
     ("context", Json.arr (r.context.map (fun n => Json.num (JsonNum.uint n))))]

/-- OllamaResponse (lib.rs 170-188).  The u64 duration fields hold `as_u64`
results (already < 2^64); `prompt_eval_count` is a u8 and `eval_count` a u16,
so the decoder below stores them reduced mod 2^8 and 2^16. -/
structure OllamaResponse where
  total_duration : Nat
  load_duration : Nat
  prompt_eval_count : Nat
  prompt_eval_duration : Nat
  eval_count : Nat
  eval_duration : Nat
  context : List Nat
  response : String
deriving DecidableEq, Repr

/-- From Value for OllamaResponse (lib.rs 190-213): defensive field reads with
zero defaults, `as u8` / `as u16` truncating casts on the counts, filter_map
over the context array, and the single bounded response-string unwrap. -/
def OllamaResponse.fromValue (value : Json) : OllamaResponse :=
  { total_duration := ((value.get "total_duration").asU64).getD 0
    load_duration := ((value.get "load_duration").asU64).getD 0
    prompt_eval_count := (((value.get "prompt_eval_count").asU64).getD 0) % 2 ^ 8
    prompt_eval_duration := ((value.get "prompt_eval_duration").asU64).getD 0
    eval_count := (((value.get "eval_count").asU64).getD 0) % 2 ^ 16
    eval_duration := ((value.get "eval_duration").asU64).getD 0
    context :=
      (((value.get "context").asArray).map
        (fun arr => arr.filterMap Json.asU64)).getD []
    response :=
      let raw := ((value.get "response").asStr).getD ""
      match parseJson raw with
      | some innerVal => ((innerVal.get "response").asStr).getD raw
      | none => raw }

/-- TryFrom str/String for OllamaResponse (lib.rs 215-231): parse the body as
a Value, then apply the infallible From conversion; `none` is the serde
error case. -/
def OllamaResponse.tryFromString (s : String) : Option OllamaResponse :=
  (parseJson s).map OllamaResponse.fromValue

/-- OllamaStreamResponse (lib.rs 234-268): required model / created_at /
response / done, the rest optional with serde defaults. -/
structure OllamaStreamResponse where
  model : String
  created_at : String
  response : String
  done : Bool
  done_reason : Option String
  context : Option (List Nat)
  total_duration : Option Nat
  load_duration : Option Nat
  prompt_eval_count : Option Nat
  prompt_eval_duration : Option Nat
  eval_count : Option Nat
  eval_duration : Option Nat
deriving DecidableEq, Repr

/-- Serde String deserializer. -/
def deStr : Json → Option String
  | .str s => some s
  | _ => none

/-- Serde bool deserializer. -/
def deBool : Json → Option Bool
  | .bool b => some b
  | _ => none

/-- Serde u64 deserializer: unsigned integers only. -/
def deU64 : Json → Option Nat
  | .num (.uint n) => some n
  | _ => none

/-- Serde u8 deserializer: unsigned integers up to 255. -/
def deU8 : Json → Option Nat
  | .num (.uint n) => if n < 2 ^ 8 then some n else none
  | _ => none

/-- Serde u16 deserializer: unsigned integers up to 65535. -/
def deU16 : Json → Option Nat
  | .num (.uint n) => if n < 2 ^ 16 then some n else none
  | _ => none

/-- Serde Vec u64 deserializer: an array whose every element is a u64. -/
def deVecU64 : Json → Option (List Nat)
  | .arr xs => xs.mapM deU64
  | _ => none

/-- Serde Option-with-default field: missing → None, null → None, present
value must deserialize. -/
def deOptField (kvs : List (String × Json)) (key : String)
    (f : Json → Option α) : Option (Option α) :=
  match kvs.lookup key with
  | none => some none
  | some Json.null => some none
  | some j => (f j).map some

/-- Derived serde Deserialize for OllamaStreamResponse: a JSON object with the
four required fields well-typed and each optional field either absent, null,
or well-typed (unknown fields ignored). -/
def OllamaStreamResponse.fromJson (j : Json) : Option OllamaStreamResponse := do
  let Json.obj kvs := j | none
  let model ← (kvs.lookup "model").bind deStr
  let created_at ← (kvs.lookup "created_at").bind deStr
  let response ← (kvs.lookup "response").bind deStr
  let done ← (kvs.lookup "done").bind deBool
  let done_reason ← deOptField kvs "done_reason" deStr
  let context ← deOptField kvs "context" deVecU64
  let total_duration ← deOptField kvs "total_duration" deU64
  let load_duration ← deOptField kvs "load_duration" deU64
  let prompt_eval_count ← deOptField kvs "prompt_eval_count" deU8
  let prompt_eval_duration ← deOptField kvs "prompt_eval_duration" deU64
  let eval_count ← deOptField kvs "eval_count" deU16
  let eval_duration ← deOptField kvs "eval_duration" deU64
  pure { model := model, created_at := created_at, response := response,
         done := done, done_reason := done_reason, context := context,
         total_duration := total_duration, load_duration := load_duration,
         prompt_eval_count := prompt_eval_count,
         prompt_eval_duration := prompt_eval_duration,
         eval_count := eval_count, eval_duration := eval_duration }

/-- serde_json::from_str::<OllamaStreamResponse> followed by map_err(Into)
(lib.rs 406): the per-line decode of the streaming path. -/
def parseStreamLine (line : String) : Except OllamaError OllamaStreamResponse :=
  match (parseJson line).bind OllamaStreamResponse.fromJson with
  | some r => Except.ok r
  | none => Except.error OllamaError.serde

/-- Rust str::trim restricted to the whitespace the modelled inputs use
(ASCII space, tab, LF, CR; Rust also trims other Unicode whitespace). -/
def trimRust (s : String) : String :=
  String.mk (((s.data.dropWhile (fun c => jsonWs c)).reverse.dropWhile
    (fun c => jsonWs c)).reverse)

/-- The closure of lines.filter_map in stream_generate (lib.rs 403-411):
a framed line maps to no item when blank after trimming, to Some(decoded)
otherwise, and a framing error maps to Some(Err). -/
def processLine : Except LinesCodecError String →
    Option (Except OllamaError OllamaStreamResponse)
  | .ok line =>
    if trimRust line = "" then none
    else some (parseStreamLine line)
  | .error e => some (Except.error (OllamaError.fromLinesCodec e))

/-- The decoded event sequence of stream_generate: filter_map over the framed
lines, in order (the Stream combinator preserves order and laziness; the
sequence of produced items is what is modelled). -/
def streamDecode (lines : List (Except LinesCodecError String)) :
    List (Except OllamaError OllamaStreamResponse) :=
  lines.filterMap processLine

/-- Ollama client state (lib.rs 74-86); the reqwest handle is an external
collaborator and the url is kept as its string. -/
structure Ollama where
  url : String
  model : String
  context : List Nat
  system : String
deriving DecidableEq, Repr

/-- Ollama::generate (lib.rs 311-339).  The transport oracle stands for
post + send + text on the serialized request body; its error covers every
reqwest failure.  On transport or decode failure the client is returned
unchanged (the Rust method returns Err before the context assignment); on
success the context is overwritten with the response's context. -/
def Ollama.generate (c : Ollama) (prompt : String)
    (transport : Json → Except OllamaError String) :
    Except OllamaError OllamaResponse × Ollama :=
  let request := OllamaRequest.new c.model prompt
    { suffix := "", format := Format.None, system := c.system,
      context := c.context }
    false false
  match transport request.toJson with
  | .error e => (Except.error e, c)
  | .ok resText =>
    match OllamaResponse.tryFromString resText with
    | none => (Except.error OllamaError.serde, c)
    | some response =>
      (Except.ok response, { c with context := response.context })

/-- Ollama::generate_blocking (lib.rs 416-445): same request construction,
transport and decode shape as generate, on a blocking client. -/
def Ollama.generate_blocking (c : Ollama) (prompt : String)
    (transport : Json → Except OllamaError String) :
    Except OllamaError OllamaResponse × Ollama :=
  let request := OllamaRequest.new c.model prompt
    { suffix := "", format := Format.None, system := c.system,
      context := c.context }
    false false
  match transport request.toJson with
  | .error e => (Except.error e, c)
  | .ok responseText =>
    match OllamaResponse.tryFromString responseText with
    | none => (Except.error OllamaError.serde, c)
    | some response =>
      (Except.ok response, { c with context := response.context })

/-- Ollama::stream_generate (lib.rs 371-414).  The transport oracle stands
for post + send + bytes_stream + line framing: it yields the framed line
results the LinesCodec produces.  The returned client is the state of self
after the call: stream_generate never assigns self.context (no such statement
exists in its body), so the client comes back with its context untouched. -/
def Ollama.stream_generate (c : Ollama) (prompt : String)
    (transport : Json → Except OllamaError (List (Except LinesCodecError String))) :
    Except OllamaError (List (Except OllamaError OllamaStreamResponse)) × Ollama :=
  let request := OllamaRequest.new c.model prompt
    { suffix := "", format := Format.None, system := c.system,
      context := c.context }
    true false
  match transport request.toJson with
  | .error e => (Except.error e, c)
  | .ok lines => (Except.ok (streamDecode lines), c)

/-! Concrete fixtures: a terminal streaming line (done = true, with context),
a fragment line (done = false), and their decoded events; a client and a
non-streaming response body. -/

/-- A terminal streaming line: done true, context [1,2,3]. -/
def doneLine : String :=
  "\x7b\"model\":\"m\",\"created_at\":\"t\",\"response\":\"\",\"done\":true,\"context\":[1,2,3]\x7d"

/-- The decoded event of doneLine. -/
def doneEvent : OllamaStreamResponse :=
  { model := "m", created_at := "t", response := "", done := true,
    done_reason := none, context := some [1, 2, 3], total_duration := none,
    load_duration := none, prompt_eval_count := none,
    prompt_eval_duration := none, eval_count := none, eval_duration := none }

/-- A fragment streaming line: done false, a text chunk only. -/
def fragLine : String :=
  "\x7b\"model\":\"m\",\"created_at\":\"t\",\"response\":\"hi \",\"done\":false\x7d"

/-- The decoded event of fragLine. -/
def fragEvent : OllamaStreamResponse :=
  { model := "m", created_at := "t", response := "hi ", done := false,
    done_reason := none, context := none, total_duration := none,
    load_duration := none, prompt_eval_count := none,
    prompt_eval_duration := none, eval_count := none, eval_duration := none }

/-- A client with a non-empty prior context. -/
def clientA : Ollama :=
  { url := "http://localhost:11434/api/generate", model := "llama3.2",
    context := [1], system := "" }

/-- A client with an empty context (first turn). -/
def clientEmpty : Ollama :=
  { url := "http://localhost:11434/api/generate", model := "llama3.2",
    context := [], system := "" }

/-- A non-streaming response body carrying context [7]. -/
def bodyA : String := "\x7b\"context\":[7],\"response\":\"ok\"\x7d"

/-- The decoded response of bodyA. -/
def respA : OllamaResponse :=
  { total_duration := 0, load_duration := 0, prompt_eval_count := 0,
    prompt_eval_duration := 0, eval_count := 0, eval_duration := 0,
    context := [7], response := "ok" }

/-- clientA after its context is replaced by [7]. -/
def clientA7 : Ollama :=
  { url := "http://localhost:11434/api/generate", model := "llama3.2",
    context := [7], system := "" }

/-- Strictness of filterMap length when some element is dropped. -/
theorem length_filterMap_lt_of_mem {α β : Type} (f : α → Option β) :
    ∀ (l : List α) (a : α), a ∈ l → f a = none →
      (l.filterMap f).length < l.length := by
  intro l
  induction l with
  | nil => intro a ha _; cases ha
  | cons b t ih =>
    intro a ha hf
    rcases List.mem_cons.mp ha with hab | hat
    · subst hab
      rw [List.filterMap_cons, hf]
      exact Nat.lt_succ_of_le (List.length_filterMap_le f t)
    · rw [List.filterMap_cons]
      cases hfb : f b with
      | none => exact Nat.lt_succ_of_lt (ih a hat hf)
      | some c => exact Nat.succ_lt_succ (ih a hat hf)

/-- C1 counterexample: the claim is false for stream_generate.  A successful
streaming call whose single line is the terminal done=true event with context
[1,2,3] decodes that event, yet the client's stored context afterwards is
still the old empty context, not [1,2,3]: stream_generate contains no
assignment to self.context. -/
theorem C1_counterexample :
    (clientEmpty.stream_generate "Why is the sky blue?"
        (fun _ => Except.ok [Except.ok doneLine])).1 =
      Except.ok [Except.ok doneEvent] ∧
    doneEvent.done = true ∧
    doneEvent.context = some [1, 2, 3] ∧
    (clientEmpty.stream_generate "Why is the sky blue?"
        (fun _ => Except.ok [Except.ok doneLine])).2.context = [] ∧
    ([] : List Nat) ≠ [1, 2, 3] := by
  refine ⟨rfl, rfl, rfl, rfl, by decide⟩

/-- C1 (amended): after a successful generate or generate_blocking call the
client equals the old client with its context fully replaced by the
response's context (never merged or appended); stream_generate returns the
client with all of its state, the context included, unchanged — it never
writes the terminal event's context back. -/
theorem C1_context_replacement (c : Ollama) (prompt : String)
    (t : Json → Except OllamaError String)
    (ts : Json → Except OllamaError (List (Except LinesCodecError String)))
    (r rb : OllamaResponse) (cg cb : Ollama)
    (hg : c.generate prompt t = (Except.ok r, cg))
    (hb : c.generate_blocking prompt t = (Except.ok rb, cb)) :
    cg = { c with context := r.context } ∧
    cb = { c with context := rb.context } ∧
    (c.stream_generate prompt ts).2 = c := by
  refine ⟨?_, ?_, ?_⟩
  · simp only [Ollama.generate] at hg
    split at hg
    · simp at hg
    · split at hg
      · simp at hg
      · simp only [Prod.mk.injEq, Except.ok.injEq] at hg
        rw [← hg.2, ← hg.1]
  · simp only [Ollama.generate_blocking] at hb
    split at hb
    · simp at hb
    · split at hb
      · simp at hb
      · simp only [Prod.mk.injEq, Except.ok.injEq] at hb
        rw [← hb.2, ← hb.1]
  · simp only [Ollama.stream_generate]
    split <;> rfl

/-- C1 witness: a concrete successful call through each of the three entry
points; generate and generate_blocking replace context [1] by [7], while
stream_generate hands back the client unchanged. -/
theorem C1_context_replacement_witness :
    clientA7 = { clientA with context := respA.context } ∧
    clientA7 = { clientA with context := respA.context } ∧
    (clientA.stream_generate "p"
        (fun _ => Except.ok [Except.ok doneLine])).2 = clientA :=
  C1_context_replacement clientA "p" (fun _ => Except.ok bodyA)
    (fun _ => Except.ok [Except.ok doneLine]) respA respA clientA7 clientA7
    rfl rfl

/-- C2 counterexample: the claim is false as stated.  A framed input with two
identical done=true lines decodes to two events, both carrying done = true:
the decoder neither enforces at-most-one done=true nor stops producing
elements after the first one. -/
theorem C2_counterexample :
    streamDecode [Except.ok doneLine, Except.ok doneLine] =
      [Except.ok doneEvent, Except.ok doneEvent] ∧
    doneEvent.done = true := ⟨rfl, rfl⟩

/-- C2 (amended): the streaming decoder never inspects done and does not
terminate the sequence at a done=true event; every further framed line is
still processed, so the sequence ends only when the underlying byte stream
ends.  Stated: after a non-blank line decoding to a done=true event, the
decoded sequence is that event followed by the decode of all remaining
lines. -/
theorem C2_done_not_terminal (l : String) (e : OllamaStreamResponse)
    (rest : List (Except LinesCodecError String))
    (hl : parseStreamLine l = Except.ok e) (hdone : e.done = true)
    (hnb : trimRust l ≠ "") :
    streamDecode (Except.ok l :: rest) =
      Except.ok e :: streamDecode rest := by
  simp [streamDecode, List.filterMap_cons, processLine, hnb, hl]

/-- C2 witness: after the concrete done=true line, a further fragment line is
still decoded and produced. -/
theorem C2_done_not_terminal_witness :
    streamDecode [Except.ok doneLine, Except.ok fragLine] =
      Except.ok doneEvent :: streamDecode [Except.ok fragLine] :=
  C2_done_not_terminal doneLine doneEvent [Except.ok fragLine] rfl rfl
    (by decide)

/-- C3: the response text is unwrapped exactly once and never recursively.
If the outer response string parses as JSON and the parsed value has a string
response key, that inner value is used; if it parses but lacks a string
response key, or does not parse at all, the outer raw string is used
unchanged.  The closed parts check the two spec examples and that a
doubly-nested encoding is unwrapped one single level, not recursively. -/
theorem C3_response_unwrap_once :
    (∀ (v inner : Json) (raw s : String),
      v.get "response" = Json.str raw → parseJson raw = some inner →
      inner.get "response" = Json.str s →
      (OllamaResponse.fromValue v).response = s) ∧
    (∀ (v inner : Json) (raw : String),
      v.get "response" = Json.str raw → parseJson raw = some inner →
      (inner.get "response").asStr = none →
      (OllamaResponse.fromValue v).response = raw) ∧
    (∀ (v : Json) (raw : String),
      v.get "response" = Json.str raw → parseJson raw = none →
      (OllamaResponse.fromValue v).response = raw) ∧
    (OllamaResponse.fromValue
      (Json.obj [("response",
        Json.str "\x7b\"response\":\"inner text\"\x7d")])).response =
      "inner text" ∧
    (OllamaResponse.fromValue
      (Json.obj [("response", Json.str "plain text")])).response =
      "plain text" ∧
    (OllamaResponse.fromValue
      (Json.obj [("response",
        Json.str "\x7b\"response\":\"\x7b\\\"response\\\":\\\"deep\\\"\x7d\"\x7d")])).response =
      "\x7b\"response\":\"deep\"\x7d" := by
  refine ⟨?_, ?_, ?_, rfl, rfl, rfl⟩
  · intro v inner raw s h1 h2 h3
    simp [OllamaResponse.fromValue, h1, Json.asStr, h2, h3]
  · intro v inner raw h1 h2 h3
    simp only [Json.asStr] at h3
    simp [OllamaResponse.fromValue, h1, Json.asStr, h2, h3]
  · intro v raw h1 h2
    simp [OllamaResponse.fromValue, h1, Json.asStr, h2]

/-- C3 witness: the first general case applied at a concrete doubly-encoded
value. -/
theorem C3_response_unwrap_once_witness :
    (OllamaResponse.fromValue
      (Json.obj [("response",
        Json.str "\x7b\"response\":\"w\"\x7d")])).response = "w" :=
  C3_response_unwrap_once.1
    (Json.obj [("response", Json.str "\x7b\"response\":\"w\"\x7d")])
    (Json.obj [("response", Json.str "w")])
    "\x7b\"response\":\"w\"\x7d" "w" rfl rfl rfl

/-- C4: decoding a non-streaming body fails iff the body is not valid JSON;
for every valid JSON body the Value-to-response conversion is total, so
decoding succeeds whatever fields are present or however they are typed.
The closed parts: a body with wrong-typed fields still decodes, a non-JSON
body does not. -/
theorem C4_decode_total_on_json :
    (∀ s : String,
      (OllamaResponse.tryFromString s).isSome = (parseJson s).isSome) ∧
    (OllamaResponse.tryFromString
      "\x7b\"total_duration\":\"oops\",\"context\":17\x7d").isSome = true ∧
    OllamaResponse.tryFromString "not json" = none := by
  refine ⟨?_, rfl, rfl⟩
  · intro s
    unfold OllamaResponse.tryFromString
    cases parseJson s <;> rfl

/-- C5: if generate or generate_blocking fails (transport or decode error),
the client — its context field included — is exactly what it was before the
call. -/
theorem C5_error_leaves_client (c : Ollama) (prompt : String)
    (t : Json → Except OllamaError String) (e : OllamaError) :
    ((c.generate prompt t).1 = Except.error e →
      (c.generate prompt t).2 = c) ∧
    ((c.generate_blocking prompt t).1 = Except.error e →
      (c.generate_blocking prompt t).2 = c) := by
  constructor
  · intro he
    simp only [Ollama.generate] at he ⊢
    split at he
    · rfl
    · split at he
      · rfl
      · simp at he
  · intro he
    simp only [Ollama.generate_blocking] at he ⊢
    split at he
    · rfl
    · split at he
      · rfl
      · simp at he

/-- C5 witness: a failing transport and a non-JSON body each leave the
concrete client untouched. -/
theorem C5_error_leaves_client_witness :
    (clientA.generate "p" (fun _ => Except.error OllamaError.reqwest)).2 =
      clientA ∧
    (clientA.generate_blocking "p" (fun _ => Except.ok "not json")).2 =
      clientA :=
  ⟨(C5_error_leaves_client clientA "p"
      (fun _ => Except.error OllamaError.reqwest) OllamaError.reqwest).1 rfl,
   (C5_error_leaves_client clientA "p"
      (fun _ => Except.ok "not json") OllamaError.serde).2 rfl⟩

/-- C6: every metrics and context field that is missing or wrong-typed (its
u64 / array extraction fails) decodes to its zero value: durations and counts
to 0, context to the empty list; and a body missing every optional numeric
field decodes successfully with all numeric fields zero. -/
theorem C6_defensive_zero_defaults :
    (∀ v : Json, (v.get "total_duration").asU64 = none →
      (OllamaResponse.fromValue v).total_duration = 0) ∧
    (∀ v : Json, (v.get "load_duration").asU64 = none →
      (OllamaResponse.fromValue v).load_duration = 0) ∧
    (∀ v : Json, (v.get "prompt_eval_count").asU64 = none →
      (OllamaResponse.fromValue v).prompt_eval_count = 0) ∧
    (∀ v : Json, (v.get "prompt_eval_duration").asU64 = none →
      (OllamaResponse.fromValue v).prompt_eval_duration = 0) ∧
    (∀ v : Json, (v.get "eval_count").asU64 = none →
      (OllamaResponse.fromValue v).eval_count = 0) ∧
    (∀ v : Json, (v.get "eval_duration").asU64 = none →
      (OllamaResponse.fromValue v).eval_duration = 0) ∧
    (∀ v : Json, (v.get "context").asArray = none →
      (OllamaResponse.fromValue v).context = []) ∧
    OllamaResponse.tryFromString "\x7b\"response\":\"hi\"\x7d" =
      some { total_duration := 0, load_duration := 0, prompt_eval_count := 0,
             prompt_eval_duration := 0, eval_count := 0, eval_duration := 0,
             context := [], response := "hi" } := by
  refine ⟨?_, ?_, ?_, ?_, ?_, ?_, ?_, rfl⟩ <;>
    intro v h <;> simp [OllamaResponse.fromValue, h]

/-- C6 witness: the first general case applied at the JSON null value, whose
every field extraction fails. -/
theorem C6_defensive_zero_defaults_witness :
    (OllamaResponse.fromValue Json.null).total_duration = 0 :=
  C6_defensive_zero_defaults.1 Json.null rfl

/-- C7: a non-blank line that fails JSON decoding yields an error item at its
position in the decoded sequence, and the sequence is not terminated by it:
everything decoded from the lines before it comes first, then the error item,
then everything decoded from the lines after it. -/
theorem C7_error_item_not_terminal
    (xs ys : List (Except LinesCodecError String)) (bad : String)
    (hbadParse : parseStreamLine bad = Except.error OllamaError.serde)
    (hbadNb : trimRust bad ≠ "") :
    streamDecode (xs ++ Except.ok bad :: ys) =
      streamDecode xs ++
        Except.error OllamaError.serde :: streamDecode ys := by
  simp [streamDecode, List.filterMap_append, List.filterMap_cons, processLine,
    hbadNb, hbadParse]

/-- C7 witness: a malformed line between a fragment line and the terminal
line surfaces as an error item while both neighbours still decode. -/
theorem C7_error_item_not_terminal_witness :
    streamDecode [Except.ok fragLine, Except.ok "\x7bnot json",
        Except.ok doneLine] =
      streamDecode [Except.ok fragLine] ++
        Except.error OllamaError.serde ::
          streamDecode [Except.ok doneLine] :=
  C7_error_item_not_terminal [Except.ok fragLine] [Except.ok doneLine]
    "\x7bnot json" rfl (by decide)

/-- C8: a line blank after trimming produces no item at all — neither event
nor error — so a line sequence containing a blank line decodes to strictly
fewer items than it has lines. -/
theorem C8_blank_lines_filtered
    (lines : List (Except LinesCodecError String)) (l : String)
    (hmem : Except.ok l ∈ lines) (hblank : trimRust l = "") :
    processLine (Except.ok l) = none ∧
    (streamDecode lines).length < lines.length := by
  have hnone : processLine (Except.ok l) = none := by
    simp [processLine, hblank]
  exact ⟨hnone, length_filterMap_lt_of_mem processLine lines
    (Except.ok l) hmem hnone⟩

/-- C8 witness: a whitespace-only line between two valid lines is dropped and
the decoded sequence is shorter than the three input lines. -/
theorem C8_blank_lines_filtered_witness :
    processLine (Except.ok " \t ") = none ∧
    (streamDecode [Except.ok fragLine, Except.ok " \t ",
        Except.ok doneLine]).length <
      ([Except.ok fragLine, Except.ok " \t ",
        Except.ok doneLine] : List (Except LinesCodecError String)).length :=
  C8_blank_lines_filtered
    [Except.ok fragLine, Except.ok " \t ", Except.ok doneLine] " \t "
    (List.mem_cons_of_mem _ (List.mem_cons_self _ _)) rfl

/-- C9: the default-built request has format "", stream false, the default
model name "llama3.2", empty prompt / suffix / system, raw false and empty
context (checked both on the struct and on its serialized JSON), and every
request built by the builder has its format field equal to one of the two
wire strings "" and "json". -/
theorem C9_default_request :
    OllamaRequest.default.toJson.get "format" = Json.str "" ∧
    OllamaRequest.default.toJson.get "stream" = Json.bool false ∧
    OllamaRequest.default =
      { model := "llama3.2", prompt := "", suffix := "", format := "",
        system := "", stream := false, raw := false, context := [] } ∧
    (∀ (model prompt : String) (options : OllamaRequestOptions)
        (stream raw : Bool),
      (OllamaRequest.new model prompt options stream raw).format = "" ∨
      (OllamaRequest.new model prompt options stream raw).format = "json") := by
  refine ⟨rfl, rfl, rfl, ?_⟩
  intro model prompt options stream raw
  cases hf : options.format with
  | None => left; simp [OllamaRequest.new, Format.intoString, hf]
  | JSON => right; simp [OllamaRequest.new, Format.intoString, hf]

/-- C10: the non-streaming decoder stores prompt_eval_count reduced mod 2^8
(the u8 `as` cast) and eval_count reduced mod 2^16 (the u16 `as` cast), so
any body whose counts exceed those ranges decodes to the truncated values. -/
theorem C10_count_truncation (v : Json) (n m : Nat)
    (hp : (v.get "prompt_eval_count").asU64 = some n)
    (he : (v.get "eval_count").asU64 = some m) :
    (OllamaResponse.fromValue v).prompt_eval_count = n % 2 ^ 8 ∧
    (OllamaResponse.fromValue v).eval_count = m % 2 ^ 16 := by
  simp [OllamaResponse.fromValue, hp, he]

/-- C10 witness: counts 300 and 70000 exceed the u8 / u16 ranges and decode
to 300 mod 256 and 70000 mod 65536. -/
theorem C10_count_truncation_witness :
    (OllamaResponse.fromValue
      (Json.obj [("prompt_eval_count", Json.num (JsonNum.uint 300)),
                 ("eval_count", Json.num (JsonNum.uint 70000))])).prompt_eval_count =
      300 % 2 ^ 8 ∧
    (OllamaResponse.fromValue
      (Json.obj [("prompt_eval_count", Json.num (JsonNum.uint 300)),
                 ("eval_count", Json.num (JsonNum.uint 70000))])).eval_count =
      70000 % 2 ^ 16 :=
  C10_count_truncation
    (Json.obj [("prompt_eval_count", Json.num (JsonNum.uint 300)),
               ("eval_count", Json.num (JsonNum.uint 70000))])
    300 70000 rfl rfl

end RustyOllama
